import Mathlib

/-!
Verification of the `make-formatter.py` line-classification engine.

The development shallowly embeds the pure core of the script — the per-line
handlers, the diagnostic heuristic `is_error_msg`, the dispatcher
`get_processing_handler` (rendered here as `classify` into the spec's
category set plus `render`), and `process` — as executable Lean functions.
Python string primitives (`str.split`, `str.count`, `str.replace`,
`str.endswith`, `os.path.basename`, `posixpath.normpath`, ...) are modelled
faithfully, including their corner cases (non-overlapping replacement of
every occurrence, substring containment rather than token matching, and
`list.index` / indexing failures, which are modelled by `Option` with
`none` standing for an uncaught `ValueError` / `IndexError`).
-/

set_option maxRecDepth 4096

namespace MakeFormatter

/-- Python `str.isspace` for a single character (the whitespace set of
`unicodedata`: ASCII whitespace, the C1 separators, NEL, NBSP and the
Unicode space category). -/
def pyIsSpace (c : Char) : Bool :=
  c = ' ' || c = '\t' || c = '\n' || c = '\x0b' || c = '\x0c' || c = '\r' ||
  c = '\x1c' || c = '\x1d' || c = '\x1e' || c = '\x1f' ||
  c = '\x85' || c = '\xa0' || c = '\u1680' ||
  ('\u2000' ≤ c && c ≤ '\u200a') ||
  c = '\u2028' || c = '\u2029' || c = '\u202f' || c = '\u205f' || c = '\u3000'

/-- Whether a string is non-empty and its first character is whitespace
(Python `line[0].isspace()` on a non-empty `line`). -/
def startsWithSpace (line : String) : Bool :=
  match line.toList with
  | [] => false
  | c :: _ => pyIsSpace c

/-- `isPrefixOfL pat l`: `pat` is a prefix of `l` (character lists). -/
def isPrefixOfL : List Char → List Char → Bool
  | [], _ => true
  | _ :: _, [] => false
  | p :: ps, c :: cs => p == c && isPrefixOfL ps cs

/-- `containsSub pat l`: `pat` occurs as a contiguous sublist of `l`
(Python `l.count(pat) != 0`, i.e. `pat in l`). -/
def containsSub (pat : List Char) : List Char → Bool
  | [] => isPrefixOfL pat []
  | c :: cs => isPrefixOfL pat (c :: cs) || containsSub pat cs

/-- Python `pat in s` / `s.count(pat) != 0` on strings. -/
def strContains (s pat : String) : Bool :=
  containsSub pat.toList s.toList

/-- Python `s.startswith(pat)`. -/
def pyStartsWith (s pat : String) : Bool :=
  isPrefixOfL pat.toList s.toList

/-- Python `s.endswith(pat)`. -/
def pyEndsWith (s pat : String) : Bool :=
  isPrefixOfL pat.toList.reverse s.toList.reverse

/-- Python `str.split()` with no argument: split on runs of whitespace,
discarding empty pieces. -/
def splitWsAux : List Char → List Char → List (List Char)
  | [], acc => if acc = [] then [] else [acc.reverse]
  | c :: cs, acc =>
    if pyIsSpace c then
      if acc = [] then splitWsAux cs [] else acc.reverse :: splitWsAux cs []
    else splitWsAux cs (c :: acc)

/-- Python `s.split()` (whitespace split, no empty tokens). -/
def pySplit (s : String) : List String :=
  (splitWsAux s.toList []).map String.mk

/-- Python `s.split(sep)` for a single-character separator: split at every
occurrence, keeping empty pieces. -/
def splitCharAux (sep : Char) : List Char → List Char → List (List Char)
  | [], acc => [acc.reverse]
  | c :: cs, acc =>
    if c = sep then acc.reverse :: splitCharAux sep cs []
    else splitCharAux sep cs (c :: acc)

/-- Python `s.split(sep)` on strings, single-character separator. -/
def pySplitChar (s : String) (sep : Char) : List String :=
  (splitCharAux sep s.toList []).map String.mk

/-- Python `list.index(x)`: index of the first occurrence, `none` for the
`ValueError` raised when `x` is absent. -/
def pyIndex (x : String) : List String → Option Nat
  | [] => none
  | y :: ys => if y = x then some 0 else (pyIndex x ys).map (· + 1)

/-- Python `s.replace(old, new)`: every non-overlapping occurrence of `old`
is replaced, scanning left to right.  The extra `Nat` is fuel making the
recursion structural (each step consumes at least one character when `old`
is non-empty, so fuel equal to the list's length is never exhausted). -/
def pyReplaceAux (old new : List Char) : Nat → List Char → List Char
  | 0, l => l
  | _ + 1, [] => []
  | fuel + 1, c :: cs =>
    if old ≠ [] ∧ isPrefixOfL old (c :: cs) = true then
      new ++ pyReplaceAux old new fuel ((c :: cs).drop old.length)
    else
      c :: pyReplaceAux old new fuel cs

/-- Python `s.replace(old, new)` on strings. -/
def pyReplace (s old new : String) : String :=
  String.mk (pyReplaceAux old.toList new.toList s.toList.length s.toList)

/-- Python `os.path.basename` (POSIX): everything after the last slash. -/
def pyBasename (s : String) : String :=
  String.mk ((s.toList.reverse.takeWhile (fun c => c != '/')).reverse)

/-- Python `str.isdigit` restricted to ASCII content: non-empty and all
decimal digits (the script only ever applies it to pieces of a command
token such as the `"7"` of `"g++-7"`). -/
def pyIsDigitStr (s : String) : Bool :=
  !s.toList.isEmpty && s.toList.all Char.isDigit

/-- Component-collapsing loop of `posixpath.normpath`: skip `""` and `"."`,
resolve `".."` lexically.  `acc` holds the kept components in reverse. -/
def normCompsAux (initialSlashes : Nat) : List String → List String → List String
  | [], acc => acc.reverse
  | comp :: rest, acc =>
    if comp = "" ∨ comp = "." then
      normCompsAux initialSlashes rest acc
    else if comp ≠ ".." ∨ (initialSlashes = 0 ∧ acc = []) ∨ acc.head? = some ".." then
      normCompsAux initialSlashes rest (comp :: acc)
    else
      normCompsAux initialSlashes rest acc.tail

/-- Python `posixpath.normpath`: collapse redundant separators and `.` and
`..` segments purely lexically. -/
def pyNormpath (path : String) : String :=
  if path = "" then "."
  else
    let initialSlashes : Nat :=
      if pyStartsWith path "//" && !pyStartsWith path "///" then 2
      else if pyStartsWith path "/" then 1
      else 0
    let comps := normCompsAux initialSlashes (pySplitChar path '/') []
    let p := String.mk (List.replicate initialSlashes '/') ++ String.intercalate "/" comps
    if p = "" then "." else p

/-! ### Key symbols and prefixes of `make-formatter.py` -/

def K_OBJ : String := ".o"
def K_CPP : String := ".cc"
def K_ASM : String := ".s"
def K_COMPILE : String := " -c"
def K_OUTPUT : String := " -o"
/-- `K_OUTPUT.strip()`, the form the handlers search tokens for. -/
def K_OUTPUT_STRIPPED : String := "-o"
def K_FPIC : String := " -fPIC"
def K_PREPAR : String := "Preparation: "
def K_STARS : String := "***"
def K_MAKEDONE : String := "make: DONE "

def PREFIX_COMPILE : String := "\x1b[38;5;220m[Compile]\x1b[0m"
def PREFIX_LINK : String := "\x1b[38;5;45m[Link]\x1b[0m"
def PREFIX_COMPLINK : String := "\x1b[38;5;41m[Compile + Link]\x1b[0m"
def PREFIX_SHAREDLIB : String := "\x1b[38;5;225m[Library]\x1b[0m"

/-! ### The line handlers

Each handler returns `Option (String × Bool)`: `some (text, visible)` on
normal return, `none` when the Python original would raise (a `ValueError`
from `list.index` or an `IndexError` from out-of-range indexing). -/

/-- `handle_compile_only` of the script. -/
def handle_compile_only (line : String) : Option (String × Bool) :=
  let line_split := pySplit line
  if strContains line K_OUTPUT_STRIPPED then
    match pyIndex K_OUTPUT_STRIPPED line_split with
    | none => none
    | some i =>
      match line_split.get? (i + 1) with
      | none => none
      | some obj => some (PREFIX_COMPILE ++ " => " ++ obj, true)
  else
    let source_files :=
      ((line_split.filter (fun item => pyEndsWith item K_CPP)).map
        (fun item => pyBasename (pyReplace item K_CPP K_OBJ))) ++
      ((line_split.filter (fun item => pyEndsWith item K_ASM)).map
        (fun item => pyBasename (pyReplace item K_ASM K_OBJ)))
    some (PREFIX_COMPILE ++ " => " ++ String.intercalate " " source_files, true)

/-- `handle_convert_obj_to_so` of the script. -/
def handle_convert_obj_to_so (line : String) : Option (String × Bool) :=
  let line_split := pySplit line
  match pyIndex K_OUTPUT_STRIPPED line_split with
  | none => none
  | some i =>
    match line_split.get? (i + 1) with
    | none => none
    | some so => some (PREFIX_SHAREDLIB ++ " => " ++ pyNormpath so, true)

/-- `handle_compile_and_link` of the script. -/
def handle_compile_and_link (line : String) : Option (String × Bool) :=
  let line_split := pySplit line
  match pyIndex K_OUTPUT_STRIPPED line_split with
  | none => none
  | some i =>
    if i + 1 ≥ line_split.length then some (PREFIX_COMPLINK ++ " => a.out", true)
    else some (PREFIX_COMPLINK ++ " => " ++ pyNormpath (line_split.getD (i + 1) ""), true)

/-- `handle_link_only` of the script. -/
def handle_link_only (line : String) : Option (String × Bool) :=
  let line_split := pySplit line
  match pyIndex K_OUTPUT_STRIPPED line_split with
  | none => none
  | some i =>
    if i + 1 ≥ line_split.length then some (PREFIX_LINK ++ " => a.out", true)
    else some (PREFIX_LINK ++ " => " ++ pyNormpath (line_split.getD (i + 1) ""), true)

/-- `handle_preparation_msg` of the script. -/
def handle_preparation_msg (_line : String) : Option (String × Bool) :=
  some ("", false)

/-- `handle_separator` of the script. -/
def handle_separator (_line : String) : Option (String × Bool) :=
  some ("", false)

/-- `handler_makedone_message` of the script. -/
def handler_makedone_message (_line : String) : Option (String × Bool) :=
  some ("", false)

/-- `handle_passthrough` of the script. -/
def handle_passthrough (line : String) : Option (String × Bool) :=
  some (line, true)

/-- First whitespace-delimited token (`line.split()[0]`; the script only
evaluates it on non-empty lines that do not start with whitespace, where
the token list is non-empty). -/
def firstToken (line : String) : String :=
  (pySplit line).headD ""

/-- `is_error_msg` of the script, transcribed branch by branch.  Note that
the compiler-suffix check tests `first.endswith("g++")` but
`line.endswith("gcc")` — on the whole line — exactly as the source does. -/
def is_error_msg (line : String) : Bool :=
  if startsWithSpace line then true
  else if pyStartsWith line K_STARS || pyStartsWith line K_MAKEDONE ||
      strContains line K_PREPAR then false
  else
    let first := firstToken line
    if pyEndsWith first "g++" || pyEndsWith line "gcc" then false
    else if first = "ld" || first = "ar" || first = "gold" then false
    else if first.toList.count '-' = 1 then
      let e1 := (pySplitChar first '-').getD 0 ""
      let e2 := (pySplitChar first '-').getD 1 ""
      if (pyEndsWith e1 "g++" || pyEndsWith e1 "gcc") && pyIsDigitStr e2 then false
      else true
    else true

/-- The spec's closed category set; `diagnostic` is the `is_error_msg`
branch of the dispatcher, `passthrough` its final default (both are routed
to `handle_passthrough`). -/
inductive Category where
  | diagnostic
  | compileOnly
  | sharedLibraryLink
  | compileAndLink
  | linkOnly
  | preparation
  | separator
  | buildDone
  | passthrough
deriving DecidableEq, Repr

/-- `get_processing_handler` of the script, with each branch named by its
category.  The branch order follows the source exactly (the source warns
that the order is load-bearing). -/
def classify (line : String) : Category :=
  if line = "" then Category.passthrough
  else if is_error_msg line then Category.diagnostic
  else if strContains line K_COMPILE then Category.compileOnly
  else if strContains line K_FPIC then Category.sharedLibraryLink
  else if strContains line K_OUTPUT then
    if strContains line K_CPP || strContains line K_ASM then Category.compileAndLink
    else Category.linkOnly
  else if strContains line K_PREPAR then Category.preparation
  else if strContains line K_STARS then Category.separator
  else if strContains line K_MAKEDONE then Category.buildDone
  else Category.passthrough

/-- Category-to-handler wiring (the function value `get_processing_handler`
returns). -/
def render : Category → String → Option (String × Bool)
  | Category.diagnostic, line => handle_passthrough line
  | Category.compileOnly, line => handle_compile_only line
  | Category.sharedLibraryLink, line => handle_convert_obj_to_so line
  | Category.compileAndLink, line => handle_compile_and_link line
  | Category.linkOnly, line => handle_link_only line
  | Category.preparation, line => handle_preparation_msg line
  | Category.separator, line => handle_separator line
  | Category.buildDone, line => handler_makedone_message line
  | Category.passthrough, line => handle_passthrough line

/-- `process` of the script, with the module-level `enable` switch passed
explicitly. -/
def process (enable : Bool) (line : String) : Option (String × Bool) :=
  if !enable then some (line, true)
  else render (classify line) line

/-- Object-file names derived from the C++-source tokens of a line, in
order of appearance: base name of the token with every occurrence of
`".cc"` replaced by `".o"` (the first comprehension of
`handle_compile_only`). -/
def ccNames (line : String) : List String :=
  ((pySplit line).filter (fun item => pyEndsWith item K_CPP)).map
    (fun item => pyBasename (pyReplace item K_CPP K_OBJ))

/-- Object-file names derived from the assembly-source tokens of a line, in
order of appearance (the second comprehension of `handle_compile_only`). -/
def asmNames (line : String) : List String :=
  ((pySplit line).filter (fun item => pyEndsWith item K_ASM)).map
    (fun item => pyBasename (pyReplace item K_ASM K_OBJ))

/-- Target names of a CompileOnly line rendered without an output flag, as
the (amended) spec words them: for each whitespace-delimited token ending
in the C++-source suffix and then for each token ending in the
assembly-source suffix, the base name of the token with every occurrence
of the suffix string replaced by the object suffix. -/
def compileTargetNames (line : String) : List String :=
  ccNames line ++ asmNames line

/-! ### Helper lemmas -/

theorem containsSub_of_isPrefixOfL (p l : List Char) (h : isPrefixOfL p l = true) :
    containsSub p l = true := by
  cases l with
  | nil => simpa [containsSub] using h
  | cons c cs => simp [containsSub, h]

theorem strContains_of_pyStartsWith (s p : String) (h : pyStartsWith s p = true) :
    strContains s p = true :=
  containsSub_of_isPrefixOfL _ _ h

theorem pyIndex_lt_length (x : String) (l : List String) {i : Nat}
    (h : pyIndex x l = some i) : i < l.length := by
  induction l generalizing i with
  | nil => simp [pyIndex] at h
  | cons y ys ih =>
    simp only [pyIndex] at h
    by_cases hy : y = x
    · rw [if_pos hy] at h
      obtain rfl : (0 : Nat) = i := Option.some.inj h
      simp only [List.length_cons]
      omega
    · rw [if_neg hy] at h
      obtain ⟨j, hj, hji⟩ := Option.map_eq_some'.mp h
      have hlt := ih hj
      simp only [List.length_cons]
      omega

theorem get?_isSome_of_lt {α : Type} (l : List α) (i : Nat) (h : i < l.length) :
    ∃ x, l.get? i = some x := by
  induction l generalizing i with
  | nil => simp at h
  | cons a as ih =>
    cases i with
    | zero => exact ⟨a, rfl⟩
    | succ j => simpa using ih j (by simpa using h)

theorem handle_compile_only_shape (line : String) :
    handle_compile_only line = none ∨
      ∃ t, handle_compile_only line = some (t, true) := by
  unfold handle_compile_only
  simp only []
  split
  · split
    · exact Or.inl rfl
    · split
      · exact Or.inl rfl
      · exact Or.inr ⟨_, rfl⟩
  · exact Or.inr ⟨_, rfl⟩

theorem handle_convert_obj_to_so_shape (line : String) :
    handle_convert_obj_to_so line = none ∨
      ∃ t, handle_convert_obj_to_so line = some (t, true) := by
  unfold handle_convert_obj_to_so
  simp only []
  split
  · exact Or.inl rfl
  · split
    · exact Or.inl rfl
    · exact Or.inr ⟨_, rfl⟩

theorem handle_compile_and_link_shape (line : String) :
    handle_compile_and_link line = none ∨
      ∃ t, handle_compile_and_link line = some (t, true) := by
  unfold handle_compile_and_link
  simp only []
  split
  · exact Or.inl rfl
  · split
    · exact Or.inr ⟨_, rfl⟩
    · exact Or.inr ⟨_, rfl⟩

theorem handle_link_only_shape (line : String) :
    handle_link_only line = none ∨
      ∃ t, handle_link_only line = some (t, true) := by
  unfold handle_link_only
  simp only []
  split
  · exact Or.inl rfl
  · split
    · exact Or.inr ⟨_, rfl⟩
    · exact Or.inr ⟨_, rfl⟩

/-! ### The claims -/

/-- C1: the claim says a first token ending in a known compiler suffix
(`"g++"` or `"gcc"`) is recognized and the line is not a Diagnostic.  The
code instead tests `line.endswith("gcc")` on the whole line where its own
inline comment intends the first token, so `"gcc -c foo.cc"` — first token
`"gcc"`, no marker, not starting with whitespace — is classified
Diagnostic.  This theorem evaluates the code at that failing input. -/
theorem c1_gcc_token_misclassified :
    pyEndsWith (firstToken "gcc -c foo.cc") "gcc" = true ∧
    startsWithSpace "gcc -c foo.cc" = false ∧
    pyStartsWith "gcc -c foo.cc" K_STARS = false ∧
    pyStartsWith "gcc -c foo.cc" K_MAKEDONE = false ∧
    strContains "gcc -c foo.cc" K_PREPAR = false ∧
    is_error_msg "gcc -c foo.cc" = true ∧
    classify "gcc -c foo.cc" = Category.diagnostic := by
  decide

/-- C2 counterexample: `"x ***"` contains the separator marker and does not
start with whitespace, yet it is classified as a diagnostic (its first
token is not a compiler) and emitted verbatim with `visible = true` — the
dispatcher only suppresses separator/build-done markers when the line
starts with them. -/
theorem c2_counterexample :
    strContains "x ***" K_STARS = true ∧
    startsWithSpace "x ***" = false ∧
    process true "x ***" = some ("x ***", true) := by
  decide

/-- C2 amended: for every line that starts with the separator marker or the
build-done marker, or contains the preparation marker, does not start with
whitespace, and contains none of the compile / position-independent-code /
output flag markers, processing returns invisible empty output. -/
theorem c2_markers_suppressed (line : String)
    (hm : pyStartsWith line K_STARS = true ∨ pyStartsWith line K_MAKEDONE = true ∨
      strContains line K_PREPAR = true)
    (hsp : startsWithSpace line = false)
    (hc : strContains line K_COMPILE = false)
    (hf : strContains line K_FPIC = false)
    (ho : strContains line K_OUTPUT = false) :
    process true line = some ("", false) := by
  have hne : line ≠ "" := by
    rintro rfl
    rcases hm with h | h | h <;> exact absurd h (by decide)
  have herr : is_error_msg line = false := by
    rcases hm with h | h | h <;> simp [is_error_msg, hsp, h]
  have hp : process true line = render (classify line) line := by simp [process]
  rw [hp]
  by_cases hprep : strContains line K_PREPAR = true
  · have hcat : classify line = Category.preparation := by
      simp [classify, hne, herr, hc, hf, ho, hprep]
    rw [hcat]
    rfl
  · replace hprep : strContains line K_PREPAR = false := by
      simpa using hprep
    by_cases hstars : strContains line K_STARS = true
    · have hcat : classify line = Category.separator := by
        simp [classify, hne, herr, hc, hf, ho, hprep, hstars]
      rw [hcat]
      rfl
    · replace hstars : strContains line K_STARS = false := by
        simpa using hstars
      rcases hm with h | h | h
      · exact absurd (strContains_of_pyStartsWith _ _ h) (by simp [hstars])
      · have hmd : strContains line K_MAKEDONE = true :=
          strContains_of_pyStartsWith _ _ h
        have hcat : classify line = Category.buildDone := by
          simp [classify, hne, herr, hc, hf, ho, hprep, hstars, hmd]
        rw [hcat]
        rfl
      · exact absurd h (by simp [hprep])

/-- C2 witness. -/
theorem c2_markers_suppressed_witness :
    process true "*** Building target ***" = some ("", false) :=
  c2_markers_suppressed "*** Building target ***"
    (Or.inl (by decide)) (by decide) (by decide) (by decide) (by decide)

/-- C3 counterexample: the line `"g++ -fPIC foo.o"` is classified
SharedLibraryLink, whose renderer performs `line_split.index("-o")`
without guarding the flag's presence — the Python raises `ValueError`
(modelled here as `none`), so classification followed by rendering does
not complete for every non-empty line. -/
theorem c3_counterexample :
    classify "g++ -fPIC foo.o" = Category.sharedLibraryLink ∧
    process true "g++ -fPIC foo.o" = none := by
  decide

/-- C3 amended: rendering after classification completes without an
exception provided the token-index lookups are in range — when a
CompileOnly line contains the substring `"-o"`, or the line is classified
SharedLibraryLink, the token `"-o"` must occur in the whitespace-split
list with a token after it, and on a CompileAndLink or LinkOnly line the
token `"-o"` must occur in the list. -/
theorem c3_no_exception (line : String)
    (h1 : classify line = Category.compileOnly →
      strContains line K_OUTPUT_STRIPPED = true →
      ∃ i, pyIndex K_OUTPUT_STRIPPED (pySplit line) = some i ∧
        i + 1 < (pySplit line).length)
    (h2 : classify line = Category.sharedLibraryLink →
      ∃ i, pyIndex K_OUTPUT_STRIPPED (pySplit line) = some i ∧
        i + 1 < (pySplit line).length)
    (h3 : classify line = Category.compileAndLink →
      ∃ i, pyIndex K_OUTPUT_STRIPPED (pySplit line) = some i)
    (h4 : classify line = Category.linkOnly →
      ∃ i, pyIndex K_OUTPUT_STRIPPED (pySplit line) = some i) :
    (process true line).isSome = true := by
  have hp : process true line = render (classify line) line := by simp [process]
  rw [hp]
  cases hcat : classify line with
  | diagnostic => simp [render, handle_passthrough]
  | compileOnly =>
    by_cases hoc : strContains line K_OUTPUT_STRIPPED = true
    · obtain ⟨i, hi, hlt⟩ := h1 hcat hoc
      obtain ⟨x, hx⟩ := get?_isSome_of_lt _ _ hlt
      rw [List.get?_eq_getElem?] at hx
      simp [render, handle_compile_only, hoc, hi, hx]
    · simp only [Bool.not_eq_true] at hoc
      simp [render, handle_compile_only, hoc]
  | sharedLibraryLink =>
    obtain ⟨i, hi, hlt⟩ := h2 hcat
    obtain ⟨x, hx⟩ := get?_isSome_of_lt _ _ hlt
    rw [List.get?_eq_getElem?] at hx
    simp [render, handle_convert_obj_to_so, hi, hx]
  | compileAndLink =>
    obtain ⟨i, hi⟩ := h3 hcat
    simp only [render, handle_compile_and_link, hi]
    split <;> simp
  | linkOnly =>
    obtain ⟨i, hi⟩ := h4 hcat
    simp only [render, handle_link_only, hi]
    split <;> simp
  | preparation => simp [render, handle_preparation_msg]
  | separator => simp [render, handle_separator]
  | buildDone => simp [render, handler_makedone_message]
  | passthrough => simp [render, handle_passthrough]

/-- C3 witness. -/
theorem c3_no_exception_witness :
    (process true "g++ -fPIC -o lib.so a.o").isSome = true :=
  c3_no_exception "g++ -fPIC -o lib.so a.o"
    (fun hcat _ => absurd hcat (by decide))
    (fun _ => ⟨2, by decide, by decide⟩)
    (fun hcat => absurd hcat (by decide))
    (fun hcat => absurd hcat (by decide))

/-- C4 counterexample: `"g++ -c x.ccy.cc"` is a CompileOnly line with no
output-flag token, and the token `"x.ccy.cc"` ends with the C++-source
suffix; the claim's "suffix rewritten to `.o`" predicts `"x.ccy.o"`, but
`str.replace` rewrites every occurrence of `".cc"`, producing
`"x.oy.o"`. -/
theorem c4_counterexample :
    classify "g++ -c x.ccy.cc" = Category.compileOnly ∧
    pyIndex K_OUTPUT_STRIPPED (pySplit "g++ -c x.ccy.cc") = none ∧
    process true "g++ -c x.ccy.cc" =
      some (PREFIX_COMPILE ++ " => x.oy.o", true) ∧
    process true "g++ -c x.ccy.cc" ≠
      some (PREFIX_COMPILE ++ " => x.ccy.o", true) := by
  refine ⟨by decide, by decide, by decide, ?_⟩
  decide

/-- C4 amended: for every CompileOnly line in which the substring `"-o"`
does not occur, the rendered text is the compile prefix, `" => "`, and for
each whitespace-delimited token ending in the C++-source suffix and then
each token ending in the assembly-source suffix, the token's base name
with every occurrence of the suffix string replaced by `".o"`, joined by
single spaces; `visible` is true. -/
theorem c4_compile_only_render (line : String)
    (hcat : classify line = Category.compileOnly)
    (ho : strContains line K_OUTPUT_STRIPPED = false) :
    process true line =
      some (PREFIX_COMPILE ++ " => " ++
        String.intercalate " " (compileTargetNames line), true) := by
  have hp : process true line = render (classify line) line := by simp [process]
  rw [hp, hcat]
  simp [render, handle_compile_only, ho, compileTargetNames, ccNames, asmNames]

/-- C4 witness. -/
theorem c4_compile_only_render_witness :
    process true "g++ -c sub/a.cc b.s" =
      some (PREFIX_COMPILE ++ " => " ++
        String.intercalate " " (compileTargetNames "g++ -c sub/a.cc b.s"), true) :=
  c4_compile_only_render "g++ -c sub/a.cc b.s" (by decide) (by decide)

/-- C5: on a CompileAndLink or LinkOnly line whose first `"-o"` token is the
last whitespace-delimited token (so no token follows the output flag), the
renderer falls back to `"<prefix> => a.out"` with `visible = true`, with
the compile+link or link-only prefix respectively, and does not fail. -/
theorem c5_output_flag_last_fallback (line : String)
    (h : pyIndex K_OUTPUT_STRIPPED (pySplit line) =
      some ((pySplit line).length - 1)) :
    (classify line = Category.compileAndLink →
      process true line = some (PREFIX_COMPLINK ++ " => a.out", true)) ∧
    (classify line = Category.linkOnly →
      process true line = some (PREFIX_LINK ++ " => a.out", true)) := by
  have hlt := pyIndex_lt_length _ _ h
  have hge : (pySplit line).length - 1 + 1 ≥ (pySplit line).length := by omega
  have hp : process true line = render (classify line) line := by simp [process]
  constructor
  · intro hcat
    rw [hp, hcat]
    simp only [render, handle_compile_and_link, h]
    rw [if_pos hge]
  · intro hcat
    rw [hp, hcat]
    simp only [render, handle_link_only, h]
    rw [if_pos hge]

/-- C5 witness: one CompileAndLink instance and one LinkOnly instance. -/
theorem c5_output_flag_last_fallback_witness :
    process true "g++ x.cc -o" = some (PREFIX_COMPLINK ++ " => a.out", true) ∧
    process true "ld -o" = some (PREFIX_LINK ++ " => a.out", true) :=
  ⟨(c5_output_flag_last_fallback "g++ x.cc -o" (by decide)).1 (by decide),
   (c5_output_flag_last_fallback "ld -o" (by decide)).2 (by decide)⟩

/-- C6: on a non-diagnostic non-empty line containing no compile-flag and
no position-independent-code flag but containing the output-flag marker,
the category is CompileAndLink when a C++-source or assembly-source
extension marker is also present and LinkOnly otherwise; and the line
`"ld -o final a.o b.o"` classifies LinkOnly and renders
`"<link-prefix> => final"`. -/
theorem c6_output_flag_dispatch :
    (∀ line : String, line ≠ "" → is_error_msg line = false →
      strContains line K_COMPILE = false → strContains line K_FPIC = false →
      strContains line K_OUTPUT = true →
      classify line =
        (if strContains line K_CPP || strContains line K_ASM then
          Category.compileAndLink else Category.linkOnly)) ∧
    classify "ld -o final a.o b.o" = Category.linkOnly ∧
    process true "ld -o final a.o b.o" = some (PREFIX_LINK ++ " => final", true) := by
  refine ⟨?_, by decide, by decide⟩
  intro line hne herr hc hf ho
  simp [classify, hne, herr, hc, hf, ho]

/-- C6 witness. -/
theorem c6_output_flag_dispatch_witness :
    classify "g++ -o myprog a.cc b.cc" =
      (if strContains "g++ -o myprog a.cc b.cc" K_CPP ||
          strContains "g++ -o myprog a.cc b.cc" K_ASM then
        Category.compileAndLink else Category.linkOnly) :=
  c6_output_flag_dispatch.1 "g++ -o myprog a.cc b.cc"
    (by decide) (by decide) (by decide) (by decide) (by decide)

/-- C7: every non-empty line whose first character is whitespace is
classified Diagnostic and emitted unchanged with `visible = true`. -/
theorem c7_leading_whitespace_diagnostic (line : String) (hne : line ≠ "")
    (hsp : startsWithSpace line = true) :
    classify line = Category.diagnostic ∧ process true line = some (line, true) := by
  have herr : is_error_msg line = true := by simp [is_error_msg, hsp]
  have hcat : classify line = Category.diagnostic := by simp [classify, hne, herr]
  exact ⟨hcat, by simp [process, hcat, render, handle_passthrough]⟩

/-- C7 witness. -/
theorem c7_leading_whitespace_diagnostic_witness :
    classify " error: boom" = Category.diagnostic ∧
    process true " error: boom" = some (" error: boom", true) :=
  c7_leading_whitespace_diagnostic " error: boom" (by decide) (by decide)

/-- C8: for the line `"g++-9 -c foo.cc"` the heuristic recognizes the
versioned-compiler first token `"g++-9"` (compiler suffix, one hyphen,
numeric version), does not classify the line Diagnostic, and classifies it
CompileOnly. -/
theorem c8_versioned_compiler_compile_only :
    is_error_msg "g++-9 -c foo.cc" = false ∧
    classify "g++-9 -c foo.cc" = Category.compileOnly := by
  decide

/-- C9: for every input line and both values of the enable flag, a
processed line is invisible only with empty text — the result is either
`("", false)`, a visible result, or an exception (`none`); no non-empty
text is ever paired with `visible = false`. -/
theorem c9_invisible_empty (e : Bool) (line : String) :
    process e line = some ("", false) ∨
      (∃ t, process e line = some (t, true)) ∨ process e line = none := by
  cases e with
  | false => exact Or.inr (Or.inl ⟨line, rfl⟩)
  | true =>
    have hp : process true line = render (classify line) line := by simp [process]
    rw [hp]
    cases hcat : classify line with
    | diagnostic => exact Or.inr (Or.inl ⟨line, rfl⟩)
    | compileOnly =>
      rcases handle_compile_only_shape line with h | ⟨t, h⟩
      · exact Or.inr (Or.inr h)
      · exact Or.inr (Or.inl ⟨t, h⟩)
    | sharedLibraryLink =>
      rcases handle_convert_obj_to_so_shape line with h | ⟨t, h⟩
      · exact Or.inr (Or.inr h)
      · exact Or.inr (Or.inl ⟨t, h⟩)
    | compileAndLink =>
      rcases handle_compile_and_link_shape line with h | ⟨t, h⟩
      · exact Or.inr (Or.inr h)
      · exact Or.inr (Or.inl ⟨t, h⟩)
    | linkOnly =>
      rcases handle_link_only_shape line with h | ⟨t, h⟩
      · exact Or.inr (Or.inr h)
      · exact Or.inr (Or.inl ⟨t, h⟩)
    | preparation => exact Or.inl rfl
    | separator => exact Or.inl rfl
    | buildDone => exact Or.inl rfl
    | passthrough => exact Or.inr (Or.inl ⟨line, rfl⟩)

/-- C10: on a CompileOnly line rendered through the source-file branch (no
occurrence of the `"-o"` substring), the joined name list is always the
C++-derived names (in order of appearance) followed by the
assembly-derived names (in order of appearance), regardless of the order
of the tokens in the line; in `"g++ -c a.s b.cc"` the assembly source
comes first in the line, yet `"b.o"` precedes `"a.o"` in the output. -/
theorem c10_cc_names_before_asm_names :
    (∀ line : String, classify line = Category.compileOnly →
      strContains line K_OUTPUT_STRIPPED = false →
      process true line =
        some (PREFIX_COMPILE ++ " => " ++
          String.intercalate " " (ccNames line ++ asmNames line), true)) ∧
    process true "g++ -c a.s b.cc" = some (PREFIX_COMPILE ++ " => b.o a.o", true) := by
  constructor
  · intro line hcat ho
    have hp : process true line = render (classify line) line := by simp [process]
    rw [hp, hcat]
    simp [render, handle_compile_only, ho, ccNames, asmNames]
  · decide

/-- C10 witness. -/
theorem c10_cc_names_before_asm_names_witness :
    process true "g++ -c main.s util.cc" =
      some (PREFIX_COMPILE ++ " => " ++
        String.intercalate " "
          (ccNames "g++ -c main.s util.cc" ++ asmNames "g++ -c main.s util.cc"), true) :=
  c10_cc_names_before_asm_names.1 "g++ -c main.s util.cc" (by decide) (by decide)

end MakeFormatter
